import Mathlib

/-!
Verification development for the `velour_api.crud._read` module.

The module builds SQLAlchemy select statements that filter object detections
and instance segmentations by geometric area, reconstructs full-resolution
binary masks from cropped rasters, and collects the unique label ids attached
to an image.  We embed the relevant functions shallowly: select statements
become an explicit AST (`Select`), the PostGIS area transforms become symbolic
tags (`AreaFn`), Python exceptions become an `Except PyError` result, PIL
images become a dimension pair plus a pixel function, and the lossless PNG
encode/decode pair is modelled by an explicit scanline serialisation with a
proved inverse.  Float-valued area bounds are embedded as exact rationals:
the filter code never performs arithmetic on them, it only stores them inside
query predicates.
-/

namespace VelourApi

/-- Modelled from the spec: the task-kind enumeration (`enums.Task` /
`schemas.Task` in the repository; the enum module itself is not part of the
sources at hand).  The spec lists bounding-box detection, polygon detection,
instance segmentation, and classification as the task kinds. -/
inductive Task where
  | bboxObjectDetection
  | polyObjectDetection
  | instanceSegmentation
  | imageClassification
deriving DecidableEq, Repr

/-- Python name of a task value, used to reproduce error message text. -/
def Task.pyName : Task → String
  | .bboxObjectDetection => "Task.BBOX_OBJECT_DETECTION"
  | .polyObjectDetection => "Task.POLY_OBJECT_DETECTION"
  | .instanceSegmentation => "Task.INSTANCE_SEGMENTATION"
  | .imageClassification => "Task.IMAGE_CLASSIFICATION"

/-- Python name of an optional task value (`None` when absent). -/
def optTaskPyName : Option Task → String
  | none => "None"
  | some t => t.pyName

/-- Python exceptions that the embedded functions can raise. -/
inductive PyError where
  | valueError (msg : String)
  | assertionError
deriving DecidableEq, Repr

/-- Database tables referenced by the select statements of `_read.py`. -/
inductive Table where
  | labeledGroundTruthSegmentation
  | groundTruthSegmentation
  | labeledPredictedSegmentation
  | predictedSegmentation
  | labeledGroundTruthDetection
  | groundTruthDetection
  | labeledPredictedDetection
  | predictedDetection
  | image
  | dataset
  | model
deriving DecidableEq, Repr

/-- Symbolic names for the PostGIS area transforms used by the filters:
`ST_Area`, `ST_Area(ST_Envelope(x))`,
`ST_Area(ST_ConvexHull(ST_Boundary(ST_Polygon(x))))` and `ST_Count`. -/
inductive AreaFn where
  | stArea
  | stAreaOfEnvelope
  | stAreaOfConvexHullOfBoundaryOfPolygon
  | stCount
deriving DecidableEq, Repr

/-- Column references used by the area filters (`seg_table.shape`,
`det_table.boundary`). -/
inductive Col where
  | shape (t : Table)
  | boundary (t : Table)
deriving DecidableEq, Repr

/-- Where-clause predicates occurring in the embedded statements. -/
inductive Pred where
  | areaGe (fn : AreaFn) (c : Col) (v : ℚ)
  | areaLe (fn : AreaFn) (c : Col) (v : ℚ)
  | datasetNameEq (s : String)
  | modelNameEq (s : String)
  | isInstance (t : Table)
  | isBboxEq (t : Table) (b : Bool)
deriving DecidableEq, Repr

/-- A SQLAlchemy `Select` statement, reduced to the parts the filters touch:
the selected table, the join chain, and the accumulated where clauses. -/
structure Select where
  selectFrom : Table
  joins : List Table
  whereClauses : List Pred
deriving DecidableEq, Repr

/-- `stmt.where(p)`: append one predicate to a select statement. -/
def Select.whereAdd (s : Select) (p : Pred) : Select :=
  { s with whereClauses := s.whereClauses ++ [p] }

/-- The task dispatch inside `_filter_instance_segmentations_by_area`
(lines 312-319): bbox detection uses envelope area, polygon detection uses
the area of the convex hull of the boundary of the polygonised raster, and
every other value (including `None`) falls through to `ST_Count`. -/
def instanceSegAreaFn (task_for_area_computation : Option Task) : AreaFn :=
  if task_for_area_computation = some Task.bboxObjectDetection then
    AreaFn.stAreaOfEnvelope
  else if task_for_area_computation = some Task.polyObjectDetection then
    AreaFn.stAreaOfConvexHullOfBoundaryOfPolygon
  else
    AreaFn.stCount

/-- The task dispatch inside `_filter_object_detections_by_area`
(lines 383-391): bbox detection uses envelope area, polygon detection uses
`ST_Area` itself, and every other value raises a `ValueError`. -/
def objectDetAreaFn (task_for_area_computation : Option Task) :
    Except PyError AreaFn :=
  if task_for_area_computation = some Task.bboxObjectDetection then
    Except.ok AreaFn.stAreaOfEnvelope
  else if task_for_area_computation = some Task.polyObjectDetection then
    Except.ok AreaFn.stArea
  else
    Except.error (PyError.valueError
      ("Expected task_for_area_computation to be Task.BBOX_OBJECT_DETECTION or "
        ++ "Task.POLY_OBJECT_DETECTION but got "
        ++ optTaskPyName task_for_area_computation ++ "."))

/-- Embedding of `_filter_instance_segmentations_by_area` (lines 302-326). -/
def filter_instance_segmentations_by_area (stmt : Select) (seg_table : Table)
    (task_for_area_computation : Option Task)
    (min_area max_area : Option ℚ) : Select :=
  if min_area = none ∧ max_area = none then stmt
  else
    let area_fn := instanceSegAreaFn task_for_area_computation
    let stmt1 := match min_area with
      | some m => stmt.whereAdd (Pred.areaGe area_fn (Col.shape seg_table) m)
      | none => stmt
    match max_area with
      | some m => stmt1.whereAdd (Pred.areaLe area_fn (Col.shape seg_table) m)
      | none => stmt1

/-- Embedding of `_filter_object_detections_by_area` (lines 373-398). -/
def filter_object_detections_by_area (stmt : Select) (det_table : Table)
    (task_for_area_computation : Option Task)
    (min_area max_area : Option ℚ) : Except PyError Select :=
  if min_area = none ∧ max_area = none then Except.ok stmt
  else
    match objectDetAreaFn task_for_area_computation with
    | Except.error e => Except.error e
    | Except.ok area_fn =>
      let stmt1 := match min_area with
        | some m => stmt.whereAdd (Pred.areaGe area_fn (Col.boundary det_table) m)
        | none => stmt
      Except.ok (match max_area with
        | some m => stmt1.whereAdd (Pred.areaLe area_fn (Col.boundary det_table) m)
        | none => stmt1)

/-- Embedding of `_instance_segmentations_in_dataset_statement`
(lines 329-370). -/
def instance_segmentations_in_dataset_statement (dataset_name : String)
    (min_area max_area : Option ℚ)
    (task_for_area_computation : Option Task) : Select :=
  filter_instance_segmentations_by_area
    { selectFrom := Table.labeledGroundTruthSegmentation
      joins := [Table.groundTruthSegmentation, Table.image, Table.dataset]
      whereClauses := [Pred.isInstance Table.groundTruthSegmentation,
        Pred.datasetNameEq dataset_name] }
    Table.groundTruthSegmentation
    task_for_area_computation min_area max_area

/-- Embedding of `_object_detections_in_dataset_statement` (lines 401-436);
the guard on the `task` parameter (lines 411-417) runs before any statement
is constructed. -/
def object_detections_in_dataset_statement (dataset_name : String)
    (task : Task) (min_area max_area : Option ℚ)
    (task_for_area_computation : Option Task) : Except PyError Select :=
  if task ∉ [Task.polyObjectDetection, Task.bboxObjectDetection] then
    Except.error (PyError.valueError
      ("Expected task to be a detection task but got " ++ task.pyName))
  else
    filter_object_detections_by_area
      { selectFrom := Table.labeledGroundTruthDetection
        joins := [Table.groundTruthDetection, Table.image, Table.dataset]
        whereClauses := [Pred.datasetNameEq dataset_name,
          Pred.isBboxEq Table.groundTruthDetection
            (decide (task = Task.bboxObjectDetection))] }
      Table.groundTruthDetection
      task_for_area_computation min_area max_area

/-- Embedding of `_model_instance_segmentation_preds_statement`
(lines 439-465). -/
def model_instance_segmentation_preds_statement
    (model_name dataset_name : String) (min_area max_area : Option ℚ)
    (task_for_area_computation : Option Task) : Select :=
  filter_instance_segmentations_by_area
    { selectFrom := Table.labeledPredictedSegmentation
      joins := [Table.predictedSegmentation, Table.image, Table.model,
        Table.dataset]
      whereClauses := [Pred.modelNameEq model_name,
        Pred.datasetNameEq dataset_name,
        Pred.isInstance Table.predictedSegmentation] }
    Table.predictedSegmentation
    task_for_area_computation min_area max_area

/-- Embedding of `_model_object_detection_preds_statement` (lines 468-503);
the guard on the `task` parameter (lines 476-481) runs before any statement
is constructed. -/
def model_object_detection_preds_statement (model_name dataset_name : String)
    (task : Task) (min_area max_area : Option ℚ)
    (task_for_area_computation : Option Task) : Except PyError Select :=
  if task ∉ [Task.polyObjectDetection, Task.bboxObjectDetection] then
    Except.error (PyError.valueError
      ("Expected task to be a detection task but got " ++ task.pyName))
  else
    filter_object_detections_by_area
      { selectFrom := Table.labeledPredictedDetection
        joins := [Table.predictedDetection, Table.image, Table.model,
          Table.dataset]
        whereClauses := [Pred.modelNameEq model_name,
          Pred.datasetNameEq dataset_name,
          Pred.isBboxEq Table.predictedDetection
            (decide (task = Task.bboxObjectDetection))] }
      Table.predictedDetection
      task_for_area_computation min_area max_area

/-- Image pixel dimensions, the fields of `schemas.Image` that
`_raster_to_png_b64` reads (`image.width`, `image.height`). -/
structure ImgDims where
  width : ℕ
  height : ℕ
deriving DecidableEq, Repr

/-- A PIL image, reduced to its size and a greyscale pixel function.
`pix x y` is the value at column `x`, row `y`; only indices with
`x < width` and `y < height` are ever serialised. -/
structure Img where
  width : ℕ
  height : ℕ
  pix : ℕ → ℕ → ℕ

/-- `Image.new(size=(w, h), mode=...)`: a fresh all-zero image. -/
def Img.new (w h : ℕ) : Img :=
  { width := w, height := h, pix := fun _ _ => 0 }

/-- An axis-aligned box `(x_min, y_min, x_max, y_max)` in pixel coordinates,
as returned by `_get_bounding_box_of_raster`. -/
structure Box where
  xMin : ℤ
  yMin : ℤ
  xMax : ℤ
  yMax : ℤ
deriving DecidableEq, Repr

/-- Pixel transfer of `Image.paste(src, box)` once PIL has accepted the box:
inside the box region the source pixel is copied (hard overwrite), outside
it the destination pixel is kept.  Clipping to the destination bounds is
implicit: serialisation only reads indices below the destination size. -/
def Img.pasteUnchecked (dst src : Img) (box : Box) : Img :=
  { width := dst.width, height := dst.height
    pix := fun x y =>
      if box.xMin ≤ (x : ℤ) ∧ (x : ℤ) < box.xMax
          ∧ box.yMin ≤ (y : ℤ) ∧ (y : ℤ) < box.yMax then
        src.pix ((x : ℤ) - box.xMin).toNat ((y : ℤ) - box.yMin).toNat
      else dst.pix x y }

/-- `Image.paste(src, box)` with a 4-tuple box: PIL raises `ValueError`
when the source size differs from the box size, and otherwise copies the
source into the region, silently clipping whatever falls outside the
destination image. -/
def Img.paste (dst src : Img) (box : Box) : Except PyError Img :=
  if box.xMax - box.xMin = (src.width : ℤ)
      ∧ box.yMax - box.yMin = (src.height : ℤ) then
    Except.ok (dst.pasteUnchecked src box)
  else
    Except.error (PyError.valueError "images do not match")

/-- The lookup table passed to `Image.point` at line 48:
`lambda x: 255 if x == 1 else 0`. -/
def pointRemap (x : ℕ) : ℕ :=
  if x = 1 then 255 else 0

/-- `Image.point(f)`: apply `f` to every pixel value. -/
def Img.point (img : Img) (f : ℕ → ℕ) : Img :=
  { width := img.width, height := img.height
    pix := fun x y => f (img.pix x y) }

/-- Per-pixel effect of `convert("1")` on an `L`-mode image: threshold at
128.  Dithering never fires here because the values reaching this step are
exactly 0 and 255.  We write the two output levels as 0 and 1 (bilevel). -/
def convertPixelTo1 (v : ℕ) : ℕ :=
  if 128 ≤ v then 1 else 0

/-- `convert("1")`: reinterpret the image as a strict two-level image. -/
def Img.convertTo1 (img : Img) : Img :=
  img.point convertPixelTo1

/-- The serialised PNG of a mask: dimensions and the scanlines.  PNG is
lossless, so the encoding is modelled as the exact pixel matrix; the final
base64 transport wrap of `_raster_to_png_b64` is injective and is modelled
as the identity on this value. -/
structure EncodedMask where
  width : ℕ
  height : ℕ
  rows : List (List ℕ)
deriving DecidableEq, Repr

/-- Lossless image encoding (`ret.save(f, format="PNG")`). -/
def encodePNG (img : Img) : EncodedMask :=
  { width := img.width, height := img.height
    rows := (List.range img.height).map
      (fun y => (List.range img.width).map (fun x => img.pix x y)) }

/-- Lossless image decoding (reading the PNG bytes back into a bitmap). -/
def decodePNG (e : EncodedMask) : Img :=
  { width := e.width, height := e.height
    pix := fun x y => (e.rows.getD y []).getD x 0 }

/-- Embedding of `_get_bounding_box_of_raster` (lines 23-31): from the
coordinate ring of the envelope polygon, return
`(min xs, min ys, max xs, max ys)`.  Python `min`/`max` raise on an empty
sequence, hence the `Option`. -/
def get_bounding_box_of_raster (envPoints : List (ℤ × ℤ)) : Option Box :=
  match envPoints with
  | [] => none
  | p :: rest =>
    some (rest.foldl
      (fun b q =>
        { xMin := min b.xMin q.1, yMin := min b.yMin q.2
          xMax := max b.xMax q.1, yMax := max b.yMax q.2 })
      { xMin := p.1, yMin := p.2, xMax := p.1, yMax := p.2 })

/-- The stored raster as this module sees it: the coordinate ring of its
envelope (what `ST_AsGeoJSON(ST_Envelope(raster))` returns) and the decoded
cropped bitmap (what `Image.open` of the `ST_AsPNG` bytes returns), with
its PIL mode string. -/
structure RasterPatch where
  envPoints : List (ℤ × ℤ)
  mode : String
  img : Img

/-- Embedding of `_raster_to_png_b64` (lines 34-54), following the source
order: compute the enveloping box, assert the decoded bitmap is `L` mode,
allocate the full-size zero image, paste, remap 1 to 255, convert to
two-level, and encode. -/
def raster_to_png_b64 (raster : RasterPatch) (image : ImgDims) :
    Except PyError EncodedMask :=
  match get_bounding_box_of_raster raster.envPoints with
  | none => Except.error (PyError.valueError "min() arg is an empty sequence")
  | some enveloping_box =>
    if raster.mode = "L" then
      match (Img.new image.width image.height).paste raster.img enveloping_box with
      | Except.error e => Except.error e
      | Except.ok ret =>
        Except.ok (encodePNG ((ret.point pointRemap).convertTo1))
    else
      Except.error PyError.assertionError

/-- A row of the label table: a database id and the (key, value) pair.
The repository stores labels deduplicated by (key, value); consistency of
the id assignment with (key, value) identity enters the theorems as an
explicit hypothesis since the table definition is owned by the storage
layer. -/
structure Label where
  id : ℕ
  key : String
  value : String
deriving DecidableEq, Repr

/-- A labeled ground-truth detection row: the association object carrying a
label reference. -/
structure LabeledDetectionRow where
  label : Label
deriving DecidableEq, Repr

/-- A ground-truth detection with its labeled-detection association rows. -/
structure GroundTruthDetectionRow where
  labeled_ground_truth_detections : List LabeledDetectionRow
deriving DecidableEq, Repr

/-- A ground-truth image classification row, carrying exactly one label. -/
structure GroundTruthClassificationRow where
  label : Label
deriving DecidableEq, Repr

/-- A labeled ground-truth segmentation association row. -/
structure LabeledSegmentationRow where
  label : Label
deriving DecidableEq, Repr

/-- A ground-truth segmentation with its labeled-segmentation rows. -/
structure GroundTruthSegmentationRow where
  labeled_ground_truth_segmentations : List LabeledSegmentationRow
deriving DecidableEq, Repr

/-- An image row with its three annotation collections, the fields that
`_get_unique_label_ids_in_image` walks. -/
structure ImageRow where
  ground_truth_detections : List GroundTruthDetectionRow
  ground_truth_classifications : List GroundTruthClassificationRow
  ground_truth_segmentations : List GroundTruthSegmentationRow
deriving DecidableEq, Repr

/-- Embedding of `_get_unique_label_ids_in_image` (lines 216-229):
start from the empty set and add the label id of every labeled detection,
every classification, and every labeled segmentation of the image. -/
def get_unique_label_ids_in_image (image : ImageRow) : Finset ℕ :=
  let ret : Finset ℕ := ∅
  let ret := image.ground_truth_detections.foldl
    (fun r det => det.labeled_ground_truth_detections.foldl
      (fun r2 labeled_det => insert labeled_det.label.id r2) r)
    ret
  let ret := image.ground_truth_classifications.foldl
    (fun r clf => insert clf.label.id r) ret
  image.ground_truth_segmentations.foldl
    (fun r seg => seg.labeled_ground_truth_segmentations.foldl
      (fun r2 labeled_seg => insert labeled_seg.label.id r2) r)
    ret

/-- All label records reachable from an image through its three annotation
collections, in walk order (a specification-side view used to state what
the id set collects). -/
def allImageLabels (image : ImageRow) : List Label :=
  image.ground_truth_detections.flatMap
      (fun det => det.labeled_ground_truth_detections.map
        (fun labeled_det => labeled_det.label))
    ++ image.ground_truth_classifications.map
      (fun clf => clf.label)
    ++ image.ground_truth_segmentations.flatMap
      (fun seg => seg.labeled_ground_truth_segmentations.map
        (fun labeled_seg => labeled_seg.label))

/-- Claim C5: building the area filter with both bounds absent returns the
base query unchanged, for the instance-segmentation path and the
object-detection path alike, for every base query, entity table, and
area-computation task (the early return precedes the task dispatch). -/
theorem area_filter_identity_when_unbounded :
    ∀ (stmt : Select) (seg_table det_table : Table) (t1 t2 : Option Task),
      filter_instance_segmentations_by_area stmt seg_table t1 none none = stmt
      ∧ filter_object_detections_by_area stmt det_table t2 none none
          = Except.ok stmt := by
  intro stmt seg_table det_table t1 t2
  exact ⟨rfl, rfl⟩

/-- Claim C6: the task-to-area-function mapping.  For detections, bbox uses
the envelope area and poly uses the exact polygon area; for instance
segmentations, bbox uses the envelope area, poly uses the area of the
convex hull of the mask boundary, and no associated detection task uses the
raw pixel count; and the filters install exactly these transforms in the
predicates they add. -/
theorem task_area_function_dispatch :
    objectDetAreaFn (some Task.bboxObjectDetection)
        = Except.ok AreaFn.stAreaOfEnvelope
    ∧ objectDetAreaFn (some Task.polyObjectDetection)
        = Except.ok AreaFn.stArea
    ∧ instanceSegAreaFn (some Task.bboxObjectDetection)
        = AreaFn.stAreaOfEnvelope
    ∧ instanceSegAreaFn (some Task.polyObjectDetection)
        = AreaFn.stAreaOfConvexHullOfBoundaryOfPolygon
    ∧ instanceSegAreaFn none = AreaFn.stCount
    ∧ (∀ (stmt : Select) (tbl : Table) (m : ℚ),
        filter_object_detections_by_area stmt tbl
            (some Task.bboxObjectDetection) (some m) none
          = Except.ok (stmt.whereAdd
              (Pred.areaGe AreaFn.stAreaOfEnvelope (Col.boundary tbl) m)))
    ∧ (∀ (stmt : Select) (tbl : Table) (m : ℚ),
        filter_object_detections_by_area stmt tbl
            (some Task.polyObjectDetection) (some m) none
          = Except.ok (stmt.whereAdd
              (Pred.areaGe AreaFn.stArea (Col.boundary tbl) m)))
    ∧ (∀ (stmt : Select) (tbl : Table) (m : ℚ),
        filter_instance_segmentations_by_area stmt tbl
            (some Task.polyObjectDetection) (some m) none
          = stmt.whereAdd (Pred.areaGe
              AreaFn.stAreaOfConvexHullOfBoundaryOfPolygon (Col.shape tbl) m))
    ∧ (∀ (stmt : Select) (tbl : Table) (m : ℚ),
        filter_instance_segmentations_by_area stmt tbl none (some m) none
          = stmt.whereAdd
              (Pred.areaGe AreaFn.stCount (Col.shape tbl) m)) := by
  refine ⟨rfl, rfl, rfl, rfl, rfl, ?_, ?_, ?_, ?_⟩ <;>
    exact fun stmt tbl m => rfl

/-- Claim C1, counterexample: requesting an instance-segmentation area
filter for a classification task with a bound present does not raise; it
silently installs the pixel-count area function `ST_Count`. -/
theorem area_filter_classification_pixel_count_cex :
    filter_instance_segmentations_by_area
      { selectFrom := Table.labeledGroundTruthSegmentation
        joins := [Table.groundTruthSegmentation, Table.image, Table.dataset]
        whereClauses := [] }
      Table.groundTruthSegmentation
      (some Task.imageClassification) (some 1) none
    = Select.whereAdd
        { selectFrom := Table.labeledGroundTruthSegmentation
          joins := [Table.groundTruthSegmentation, Table.image, Table.dataset]
          whereClauses := [] }
        (Pred.areaGe AreaFn.stCount
          (Col.shape Table.groundTruthSegmentation) 1) := by
  rfl

/-- Claim C1 as amended: only the object-detection filter rejects a task
without area semantics (with a `ValueError`, raised when at least one bound
is present); the instance-segmentation filter never raises and instead
behaves exactly like the pixel-count (`ST_Count`) path for every task other
than bbox and poly detection. -/
theorem area_filter_unsupported_task_fallback
    (stmt : Select) (seg_table det_table : Table) (tfa : Option Task)
    (min_area max_area : Option ℚ)
    (h1 : tfa ≠ some Task.bboxObjectDetection)
    (h2 : tfa ≠ some Task.polyObjectDetection) :
    (¬(min_area = none ∧ max_area = none) →
      filter_object_detections_by_area stmt det_table tfa min_area max_area
        = Except.error (PyError.valueError
            ("Expected task_for_area_computation to be Task.BBOX_OBJECT_DETECTION or "
              ++ "Task.POLY_OBJECT_DETECTION but got "
              ++ optTaskPyName tfa ++ ".")))
    ∧ filter_instance_segmentations_by_area stmt seg_table tfa
        min_area max_area
      = filter_instance_segmentations_by_area stmt seg_table none
          min_area max_area := by
  constructor
  · intro hbounds
    simp [filter_object_detections_by_area, objectDetAreaFn, h1, h2, hbounds]
  · simp [filter_instance_segmentations_by_area, instanceSegAreaFn, h1, h2]

/-- Witness for the amended claim C1 at a concrete input: a classification
area-computation task with a min bound. -/
theorem area_filter_unsupported_task_fallback_witness :
    (some Task.imageClassification ≠ some Task.bboxObjectDetection)
    ∧ (some Task.imageClassification ≠ some Task.polyObjectDetection)
    ∧ ((¬((some (1 : ℚ) : Option ℚ) = none ∧ (none : Option ℚ) = none) →
        filter_object_detections_by_area
          { selectFrom := Table.labeledGroundTruthDetection
            joins := [], whereClauses := [] }
          Table.groundTruthDetection
          (some Task.imageClassification) (some 1) none
          = Except.error (PyError.valueError
              ("Expected task_for_area_computation to be Task.BBOX_OBJECT_DETECTION or "
                ++ "Task.POLY_OBJECT_DETECTION but got "
                ++ optTaskPyName (some Task.imageClassification) ++ ".")))
      ∧ filter_instance_segmentations_by_area
          { selectFrom := Table.labeledGroundTruthDetection
            joins := [], whereClauses := [] }
          Table.groundTruthSegmentation
          (some Task.imageClassification) (some 1) none
        = filter_instance_segmentations_by_area
            { selectFrom := Table.labeledGroundTruthDetection
              joins := [], whereClauses := [] }
            Table.groundTruthSegmentation none (some 1) none) :=
  ⟨by decide, by decide,
    area_filter_unsupported_task_fallback
      { selectFrom := Table.labeledGroundTruthDetection
        joins := [], whereClauses := [] }
      Table.groundTruthSegmentation Table.groundTruthDetection
      (some Task.imageClassification) (some 1) none
      (by decide) (by decide)⟩

/-- Claim C2, counterexample: an inverted range (min 10 > max 5) is not
rejected; the detection filter returns a statement (no error), and the
segmentation filter likewise returns a statement carrying both bounds. -/
theorem inverted_area_range_no_error_cex :
    (10 : ℚ) > 5
    ∧ (filter_object_detections_by_area
        { selectFrom := Table.labeledGroundTruthDetection
          joins := [], whereClauses := [] }
        Table.groundTruthDetection
        (some Task.bboxObjectDetection) (some 10) (some 5)).isOk = true
    ∧ filter_instance_segmentations_by_area
        { selectFrom := Table.labeledGroundTruthSegmentation
          joins := [], whereClauses := [] }
        Table.groundTruthSegmentation none (some 10) (some 5)
      = Select.whereAdd
          (Select.whereAdd
            { selectFrom := Table.labeledGroundTruthSegmentation
              joins := [], whereClauses := [] }
            (Pred.areaGe AreaFn.stCount
              (Col.shape Table.groundTruthSegmentation) 10))
          (Pred.areaLe AreaFn.stCount
            (Col.shape Table.groundTruthSegmentation) 5) := by
  refine ⟨by norm_num, rfl, rfl⟩

/-- Claim C2 as amended: no min/max consistency check exists.  When both
bounds are present with min > max, both filter builders succeed and append
the two area predicates conjunctively (a filter no row can satisfy); no
error is raised. -/
theorem inverted_area_range_adds_both_predicates
    (stmt : Select) (seg_table det_table : Table) (tfa : Option Task)
    (m M : ℚ) (_h : M < m) :
    filter_instance_segmentations_by_area stmt seg_table tfa
        (some m) (some M)
      = Select.whereAdd
          (stmt.whereAdd (Pred.areaGe (instanceSegAreaFn tfa)
            (Col.shape seg_table) m))
          (Pred.areaLe (instanceSegAreaFn tfa) (Col.shape seg_table) M)
    ∧ filter_object_detections_by_area stmt det_table
        (some Task.bboxObjectDetection) (some m) (some M)
      = Except.ok (Select.whereAdd
          (stmt.whereAdd (Pred.areaGe AreaFn.stAreaOfEnvelope
            (Col.boundary det_table) m))
          (Pred.areaLe AreaFn.stAreaOfEnvelope (Col.boundary det_table) M)) :=
  ⟨rfl, rfl⟩

/-- Witness for the amended claim C2 at min 10 > max 5. -/
theorem inverted_area_range_adds_both_predicates_witness :
    (5 : ℚ) < 10
    ∧ (filter_instance_segmentations_by_area
          { selectFrom := Table.labeledGroundTruthSegmentation
            joins := [], whereClauses := [] }
          Table.groundTruthSegmentation none (some 10) (some 5)
        = Select.whereAdd
            (Select.whereAdd
              { selectFrom := Table.labeledGroundTruthSegmentation
                joins := [], whereClauses := [] }
              (Pred.areaGe (instanceSegAreaFn none)
                (Col.shape Table.groundTruthSegmentation) 10))
            (Pred.areaLe (instanceSegAreaFn none)
              (Col.shape Table.groundTruthSegmentation) 5)
      ∧ filter_object_detections_by_area
          { selectFrom := Table.labeledGroundTruthSegmentation
            joins := [], whereClauses := [] }
          Table.groundTruthDetection
          (some Task.bboxObjectDetection) (some 10) (some 5)
        = Except.ok (Select.whereAdd
            (Select.whereAdd
              { selectFrom := Table.labeledGroundTruthSegmentation
                joins := [], whereClauses := [] }
              (Pred.areaGe AreaFn.stAreaOfEnvelope
                (Col.boundary Table.groundTruthDetection) 10))
            (Pred.areaLe AreaFn.stAreaOfEnvelope
              (Col.boundary Table.groundTruthDetection) 5))) :=
  ⟨by norm_num,
    inverted_area_range_adds_both_predicates
      { selectFrom := Table.labeledGroundTruthSegmentation
        joins := [], whereClauses := [] }
      Table.groundTruthSegmentation Table.groundTruthDetection none 10 5
      (by norm_num)⟩

/-- Claim C10: the ground-truth and predicted object-detection statement
builders raise a `ValueError` for every task other than bbox and poly
detection, before building any statement, regardless of the area bounds. -/
theorem detection_statement_builders_task_guard
    (dataset_name model_name : String) (task : Task)
    (min_area max_area : Option ℚ) (tfa : Option Task)
    (h1 : task ≠ Task.polyObjectDetection)
    (h2 : task ≠ Task.bboxObjectDetection) :
    object_detections_in_dataset_statement dataset_name task
        min_area max_area tfa
      = Except.error (PyError.valueError
          ("Expected task to be a detection task but got " ++ task.pyName))
    ∧ model_object_detection_preds_statement model_name dataset_name task
        min_area max_area tfa
      = Except.error (PyError.valueError
          ("Expected task to be a detection task but got " ++ task.pyName)) := by
  constructor
  · simp [object_detections_in_dataset_statement, h1, h2]
  · simp [model_object_detection_preds_statement, h1, h2]

/-- Witness for claim C10: the guard fires for the instance-segmentation
task even with both area bounds absent. -/
theorem detection_statement_builders_task_guard_witness :
    Task.instanceSegmentation ≠ Task.polyObjectDetection
    ∧ Task.instanceSegmentation ≠ Task.bboxObjectDetection
    ∧ (object_detections_in_dataset_statement "ds" Task.instanceSegmentation
          none none none
        = Except.error (PyError.valueError
            ("Expected task to be a detection task but got "
              ++ Task.pyName Task.instanceSegmentation))
      ∧ model_object_detection_preds_statement "md" "ds"
          Task.instanceSegmentation none none none
        = Except.error (PyError.valueError
            ("Expected task to be a detection task but got "
              ++ Task.pyName Task.instanceSegmentation))) :=
  ⟨by decide, by decide,
    detection_statement_builders_task_guard "ds" "md"
      Task.instanceSegmentation none none none (by decide) (by decide)⟩

/-- Helper: under the conditions in which PIL accepts the paste (source size
equal to box size) and the decoded bitmap is greyscale, `_raster_to_png_b64`
returns the encoding of the pasted, remapped, two-level image.  No bound on
the envelope relative to the image dimensions is required. -/
theorem raster_ok_eq (raster : RasterPatch) (image : ImgDims) (box : Box)
    (henv : get_bounding_box_of_raster raster.envPoints = some box)
    (hmode : raster.mode = "L")
    (hw : box.xMax - box.xMin = (raster.img.width : ℤ))
    (hh : box.yMax - box.yMin = (raster.img.height : ℤ)) :
    raster_to_png_b64 raster image
      = Except.ok (encodePNG
          ((((Img.new image.width image.height).pasteUnchecked raster.img box).point
              pointRemap).convertTo1)) := by
  simp [raster_to_png_b64, henv, hmode, Img.paste, hw, hh]

/-- Helper: indexing a mapped range with a default recovers the function. -/
theorem getD_range_map {a : Type} (f : ℕ → a) (n i : ℕ) (d : a) (h : i < n) :
    ((List.range n).map f).getD i d = f i := by
  simp [List.getD, List.getElem?_map, List.getElem?_range, h]

/-- Helper: the scanline serialisation is lossless — decoding the encoding
of an image recovers every in-range pixel. -/
theorem decodePNG_encodePNG_pix (img : Img) (x y : ℕ)
    (hx : x < img.width) (hy : y < img.height) :
    (decodePNG (encodePNG img)).pix x y = img.pix x y := by
  show ((encodePNG img).rows.getD y []).getD x 0 = img.pix x y
  rw [show (encodePNG img).rows = (List.range img.height).map
    (fun y => (List.range img.width).map (fun x => img.pix x y)) from rfl]
  rw [getD_range_map _ _ _ _ hy, getD_range_map _ _ _ _ hx]

/-- Claim C4: round-trip.  For a greyscale raster patch with a size-matching
envelope inside the declared image dimensions and 0/1 pixel values,
reconstructing and encoding, then decoding, yields a two-level image whose
foreground pixels are exactly the patch foreground pixels translated by the
envelope top-left offset, with every pixel outside the pasted region equal
to 0. -/
theorem mask_reconstruction_round_trip (raster : RasterPatch)
    (image : ImgDims) (box : Box)
    (henv : get_bounding_box_of_raster raster.envPoints = some box)
    (hmode : raster.mode = "L")
    (hw : box.xMax - box.xMin = (raster.img.width : ℤ))
    (hh : box.yMax - box.yMin = (raster.img.height : ℤ))
    (_hx1 : 0 ≤ box.xMin) (_hx2 : box.xMax ≤ (image.width : ℤ))
    (_hy1 : 0 ≤ box.yMin) (_hy2 : box.yMax ≤ (image.height : ℤ))
    (_hbin : ∀ x, x < raster.img.width → ∀ y, y < raster.img.height →
      raster.img.pix x y ≤ 1) :
    ∃ e, raster_to_png_b64 raster image = Except.ok e
      ∧ (decodePNG e).width = image.width
      ∧ (decodePNG e).height = image.height
      ∧ ∀ x, x < image.width → ∀ y, y < image.height →
          (((decodePNG e).pix x y = 1 ↔
            (box.xMin ≤ (x : ℤ) ∧ (x : ℤ) < box.xMax
              ∧ box.yMin ≤ (y : ℤ) ∧ (y : ℤ) < box.yMax
              ∧ raster.img.pix ((x : ℤ) - box.xMin).toNat
                  ((y : ℤ) - box.yMin).toNat = 1))
          ∧ (¬(box.xMin ≤ (x : ℤ) ∧ (x : ℤ) < box.xMax
                ∧ box.yMin ≤ (y : ℤ) ∧ (y : ℤ) < box.yMax) →
              (decodePNG e).pix x y = 0)
          ∧ ((decodePNG e).pix x y = 0 ∨ (decodePNG e).pix x y = 1)) := by
  refine ⟨_, raster_ok_eq raster image box henv hmode hw hh, rfl, rfl, ?_⟩
  intro x hx y hy
  set final :=
    (((Img.new image.width image.height).pasteUnchecked raster.img box).point
      pointRemap).convertTo1 with hfinal
  have hfw : final.width = image.width := rfl
  have hfh : final.height = image.height := rfl
  have hdec : (decodePNG (encodePNG final)).pix x y = final.pix x y :=
    decodePNG_encodePNG_pix final x y (by rw [hfw]; exact hx)
      (by rw [hfh]; exact hy)
  rw [hdec]
  have hcomp : final.pix x y
      = convertPixelTo1 (pointRemap
          (((Img.new image.width image.height).pasteUnchecked
            raster.img box).pix x y)) := rfl
  rw [hcomp]
  by_cases hin : box.xMin ≤ (x : ℤ) ∧ (x : ℤ) < box.xMax
      ∧ box.yMin ≤ (y : ℤ) ∧ (y : ℤ) < box.yMax
  · rcases eq_or_ne (raster.img.pix ((x : ℤ) - box.xMin).toNat
        ((y : ℤ) - box.yMin).toNat) 1 with hv | hv <;>
      simp [Img.pasteUnchecked, hin, pointRemap, convertPixelTo1, hv]
  · simp [Img.pasteUnchecked, hin, Img.new, pointRemap, convertPixelTo1]
    exact fun h1 h2 h3 h4 => absurd ⟨h1, h2, h3, h4⟩ hin

/-- Concrete patch for the round-trip witness: a 2 by 2 diagonal mask whose
envelope sits at offset (1, 1) inside a 4 by 4 image. -/
def roundTripPatch : RasterPatch :=
  { envPoints := [(1, 1), (1, 3), (3, 3), (3, 1), (1, 1)]
    mode := "L"
    img := { width := 2, height := 2
             pix := fun x y => if x = y then 1 else 0 } }

/-- Dimensions of the image owning `roundTripPatch`. -/
def roundTripDims : ImgDims := { width := 4, height := 4 }

/-- Envelope box of `roundTripPatch`. -/
def roundTripBox : Box := { xMin := 1, yMin := 1, xMax := 3, yMax := 3 }

/-- Witness for claim C4 at the concrete `roundTripPatch`. -/
theorem mask_reconstruction_round_trip_witness :
    get_bounding_box_of_raster roundTripPatch.envPoints = some roundTripBox
    ∧ roundTripPatch.mode = "L"
    ∧ (∃ e, raster_to_png_b64 roundTripPatch roundTripDims = Except.ok e
      ∧ (decodePNG e).width = roundTripDims.width
      ∧ (decodePNG e).height = roundTripDims.height
      ∧ ∀ x, x < roundTripDims.width → ∀ y, y < roundTripDims.height →
          (((decodePNG e).pix x y = 1 ↔
            (roundTripBox.xMin ≤ (x : ℤ) ∧ (x : ℤ) < roundTripBox.xMax
              ∧ roundTripBox.yMin ≤ (y : ℤ) ∧ (y : ℤ) < roundTripBox.yMax
              ∧ roundTripPatch.img.pix ((x : ℤ) - roundTripBox.xMin).toNat
                  ((y : ℤ) - roundTripBox.yMin).toNat = 1))
          ∧ (¬(roundTripBox.xMin ≤ (x : ℤ) ∧ (x : ℤ) < roundTripBox.xMax
                ∧ roundTripBox.yMin ≤ (y : ℤ) ∧ (y : ℤ) < roundTripBox.yMax) →
              (decodePNG e).pix x y = 0)
          ∧ ((decodePNG e).pix x y = 0 ∨ (decodePNG e).pix x y = 1))) :=
  ⟨rfl, rfl,
    mask_reconstruction_round_trip roundTripPatch roundTripDims roundTripBox
      rfl rfl (by decide) (by decide) (by decide) (by decide) (by decide)
      (by decide) (by decide)⟩

/-- Concrete patch whose envelope right edge (6) exceeds the owning image
width (5): used for claim C3. -/
def oobPatch : RasterPatch :=
  { envPoints := [(1, 1), (1, 3), (6, 3), (6, 1), (1, 1)]
    mode := "L"
    img := { width := 5, height := 2
             pix := fun x y => if x = 0 ∧ y = 0 then 1 else 0 } }

/-- Concrete patch whose envelope right edge equals the owning image width
exactly (both 5): the boundary case of claim C3. -/
def boundaryPatch : RasterPatch :=
  { envPoints := [(1, 1), (1, 3), (5, 3), (5, 1), (1, 1)]
    mode := "L"
    img := { width := 4, height := 2
             pix := fun x y => if x = 0 ∧ y = 0 then 1 else 0 } }

/-- Dimensions of the 5 by 5 image used by the claim C3 patches. -/
def fiveDims : ImgDims := { width := 5, height := 5 }

/-- Claim C3, counterexample: a patch whose envelope x_max (6) exceeds the
image width (5) is not rejected — reconstruction succeeds with no error of
any kind, contradicting the claimed `GeometryIntegrityError`. -/
theorem envelope_exceeding_width_not_rejected_cex :
    ((fiveDims.width : ℤ) < 6)
    ∧ get_bounding_box_of_raster oobPatch.envPoints
        = some { xMin := 1, yMin := 1, xMax := 6, yMax := 3 }
    ∧ (raster_to_png_b64 oobPatch fiveDims).isOk = true :=
  ⟨by decide, rfl, rfl⟩

/-- Claim C3 as amended: mask reconstruction never validates the envelope
against the image dimensions.  Whenever the decoded bitmap is greyscale and
its size matches the envelope, reconstruction succeeds: envelopes that
exceed the image bounds are silently clipped by the paste (the encoded mask
keeps the declared image dimensions), and the exact-boundary case
x_max = width likewise raises nothing. -/
theorem mask_reconstruction_silently_clips (raster : RasterPatch)
    (image : ImgDims) (box : Box)
    (henv : get_bounding_box_of_raster raster.envPoints = some box)
    (hmode : raster.mode = "L")
    (hw : box.xMax - box.xMin = (raster.img.width : ℤ))
    (hh : box.yMax - box.yMin = (raster.img.height : ℤ)) :
    ∃ e, raster_to_png_b64 raster image = Except.ok e
      ∧ e.width = image.width ∧ e.height = image.height :=
  ⟨_, raster_ok_eq raster image box henv hmode hw hh, rfl, rfl⟩

/-- Witness for the amended claim C3: both the out-of-bounds patch
(x_max 6 over width 5) and the exact-boundary patch (x_max 5 equal to
width 5) reconstruct without error. -/
theorem mask_reconstruction_silently_clips_witness :
    get_bounding_box_of_raster oobPatch.envPoints
        = some { xMin := 1, yMin := 1, xMax := 6, yMax := 3 }
    ∧ ((fiveDims.width : ℤ) < (6 : ℤ))
    ∧ (∃ e, raster_to_png_b64 oobPatch fiveDims = Except.ok e
        ∧ e.width = fiveDims.width ∧ e.height = fiveDims.height)
    ∧ get_bounding_box_of_raster boundaryPatch.envPoints
        = some { xMin := 1, yMin := 1, xMax := 5, yMax := 3 }
    ∧ ((5 : ℤ) = (fiveDims.width : ℤ))
    ∧ (∃ e, raster_to_png_b64 boundaryPatch fiveDims = Except.ok e
        ∧ e.width = fiveDims.width ∧ e.height = fiveDims.height) :=
  ⟨rfl, by decide,
    mask_reconstruction_silently_clips oobPatch fiveDims
      { xMin := 1, yMin := 1, xMax := 6, yMax := 3 }
      rfl rfl (by decide) (by decide),
    rfl, by decide,
    mask_reconstruction_silently_clips boundaryPatch fiveDims
      { xMin := 1, yMin := 1, xMax := 5, yMax := 3 }
      rfl rfl (by decide) (by decide)⟩

/-- Claim C7: binarization is the two-step remap used at line 48.  The
composite of the two steps sends a pixel to foreground exactly when its
value equals the sentinel 1 — every other value, 0 and values above 1
alike, goes to background — and the pipeline applies the point remap first
and the two-level reinterpretation second, not a single threshold. -/
theorem binarization_two_step_remap :
    (∀ (img : Img) (x y : ℕ), ((img.point pointRemap).convertTo1).pix x y
        = convertPixelTo1 (pointRemap (img.pix x y)))
    ∧ (∀ v, pointRemap v = if v = 1 then 255 else 0)
    ∧ (∀ v, convertPixelTo1 v = if 128 ≤ v then 1 else 0)
    ∧ (∀ (img : Img) (x y : ℕ), ((img.point pointRemap).convertTo1).pix x y
        = if img.pix x y = 1 then 1 else 0) := by
  refine ⟨fun img x y => rfl, fun v => rfl, fun v => rfl, fun img x y => ?_⟩
  by_cases h : img.pix x y = 1 <;>
    simp [Img.point, Img.convertTo1, pointRemap, convertPixelTo1, h]

/-- Claim C8: when the decoded raster is not single-channel greyscale
(mode different from "L"), reconstruction fails with the mode assertion
(the spec's `MaskFormatError`), and the failure is independent of the
bitmap content and envelope — in particular it occurs even when the paste
itself would be impossible, showing the guard precedes allocation and
compositing. -/
theorem mask_format_guard (raster : RasterPatch) (image : ImgDims) (box : Box)
    (henv : get_bounding_box_of_raster raster.envPoints = some box)
    (hmode : raster.mode ≠ "L") :
    raster_to_png_b64 raster image = Except.error PyError.assertionError := by
  simp [raster_to_png_b64, henv, hmode]

/-- Concrete RGB-mode patch for the claim C8 witness; its bitmap size (2 by
2) deliberately disagrees with its envelope (3 by 3), so a paste attempt
would itself fail — the assertion fires first. -/
def rgbPatch : RasterPatch :=
  { envPoints := [(0, 0), (0, 3), (3, 3), (3, 0), (0, 0)]
    mode := "RGB"
    img := { width := 2, height := 2, pix := fun _ _ => 1 } }

/-- Witness for claim C8 at the concrete `rgbPatch`. -/
theorem mask_format_guard_witness :
    rgbPatch.mode ≠ "L"
    ∧ ((3 : ℤ) - 0 ≠ (rgbPatch.img.width : ℤ))
    ∧ raster_to_png_b64 rgbPatch fiveDims
        = Except.error PyError.assertionError :=
  ⟨by decide, by decide,
    mask_format_guard rgbPatch fiveDims
      { xMin := 0, yMin := 0, xMax := 3, yMax := 3 } rfl (by decide)⟩

/-- Helper: folding set insertion of `f` over a list unions in the mapped
list. -/
theorem foldl_insert_eq {a : Type} (l : List a) (f : a → ℕ) (s : Finset ℕ) :
    l.foldl (fun r x => insert (f x) r) s = s ∪ (l.map f).toFinset := by
  induction l generalizing s with
  | nil => simp
  | cons b t ih =>
    simp only [List.foldl_cons, ih, List.map_cons, List.toFinset_cons]
    ext c
    simp [or_assoc]

/-- Helper: folding a union of per-element finsets unions in the flattened
list. -/
theorem foldl_union_toFinset {a : Type} (l : List a) (h : a → List ℕ)
    (s : Finset ℕ) :
    l.foldl (fun r x => r ∪ (h x).toFinset) s = s ∪ (l.flatMap h).toFinset := by
  induction l generalizing s with
  | nil => simp
  | cons c t ih =>
    simp only [List.foldl_cons, ih, List.flatMap_cons, List.toFinset_append,
      Finset.union_assoc]

/-- Helper: the nested insert fold used for detections and segmentations
unions in the flat-mapped list. -/
theorem foldl_foldl_insert_eq {a b : Type} (l : List a) (g : a → List b)
    (f : b → ℕ) (s : Finset ℕ) :
    l.foldl (fun r x => (g x).foldl (fun r2 y => insert (f y) r2) r) s
      = s ∪ (l.flatMap (fun x => (g x).map f)).toFinset := by
  have hfun : (fun (r : Finset ℕ) x => (g x).foldl
        (fun r2 y => insert (f y) r2) r)
      = fun (r : Finset ℕ) x => r ∪ ((g x).map f).toFinset := by
    funext r x
    exact foldl_insert_eq (g x) f r
  rw [hfun, foldl_union_toFinset]

/-- Helper: the fold-based id collection equals the finset of the ids of
all labels reachable from the image. -/
theorem get_unique_label_ids_eq (image : ImageRow) :
    get_unique_label_ids_in_image image
      = ((allImageLabels image).map Label.id).toFinset := by
  show (image.ground_truth_segmentations.foldl
      (fun r seg => seg.labeled_ground_truth_segmentations.foldl
        (fun r2 labeled_seg => insert labeled_seg.label.id r2) r)
      (image.ground_truth_classifications.foldl
        (fun r clf => insert clf.label.id r)
        (image.ground_truth_detections.foldl
          (fun r det => det.labeled_ground_truth_detections.foldl
            (fun r2 labeled_det => insert labeled_det.label.id r2) r)
          ∅)))
    = ((allImageLabels image).map Label.id).toFinset
  rw [foldl_foldl_insert_eq image.ground_truth_detections
    (fun det => det.labeled_ground_truth_detections)
    (fun labeled_det => labeled_det.label.id)]
  rw [foldl_insert_eq image.ground_truth_classifications
    (fun clf => clf.label.id)]
  rw [foldl_foldl_insert_eq image.ground_truth_segmentations
    (fun seg => seg.labeled_ground_truth_segmentations)
    (fun labeled_seg => labeled_seg.label.id)]
  simp [allImageLabels, List.map_append, List.toFinset_append,
    List.map_flatMap, List.map_map, Function.comp_def, Finset.union_assoc]

/-- Helper: the finset of a mapped list is the image of the finset of the
list. -/
theorem toFinset_map_eq_image {a b : Type} [DecidableEq a] [DecidableEq b]
    (l : List a) (f : a → b) :
    (l.map f).toFinset = l.toFinset.image f := by
  induction l with
  | nil => simp
  | cons c t ih => simp [ih, Finset.image_insert]

/-- Claim C9: the unique-label-id collection returns exactly the union of
the label identities carried by the image's detections, classifications,
and segmentations, as a duplicate-free set; and under the storage
invariant that the id assignment agrees with (key, value) identity, the
set's size equals the number of distinct (key, value) pairs — duplicates
collapse by label identity, not by annotation object identity. -/
theorem unique_label_ids_spec (image : ImageRow)
    (hcons : ∀ l1 ∈ allImageLabels image, ∀ l2 ∈ allImageLabels image,
      (l1.id = l2.id ↔ l1.key = l2.key ∧ l1.value = l2.value)) :
    (∀ i, i ∈ get_unique_label_ids_in_image image
      ↔ ∃ l ∈ allImageLabels image, l.id = i)
    ∧ (get_unique_label_ids_in_image image).card
        = ((allImageLabels image).map
            (fun l => (l.key, l.value))).toFinset.card := by
  have heq := get_unique_label_ids_eq image
  constructor
  · intro i
    rw [heq]
    simp [List.mem_toFinset]
  · rw [heq, toFinset_map_eq_image, toFinset_map_eq_image]
    rw [Finset.card_image_of_injOn, Finset.card_image_of_injOn]
    · intro l1 h1 l2 h2 hkv
      have h1m : l1 ∈ allImageLabels image := List.mem_toFinset.mp h1
      have h2m : l2 ∈ allImageLabels image := List.mem_toFinset.mp h2
      have hk : l1.key = l2.key := congrArg Prod.fst hkv
      have hv : l1.value = l2.value := congrArg Prod.snd hkv
      have hid : l1.id = l2.id := (hcons l1 h1m l2 h2m).mpr ⟨hk, hv⟩
      cases l1
      cases l2
      simp_all
    · intro l1 h1 l2 h2 hid
      have h1m : l1 ∈ allImageLabels image := List.mem_toFinset.mp h1
      have h2m : l2 ∈ allImageLabels image := List.mem_toFinset.mp h2
      have hkv : l1.key = l2.key ∧ l1.value = l2.value :=
        (hcons l1 h1m l2 h2m).mp hid
      cases l1
      cases l2
      simp_all

/-- Concrete image for the claim C9 witness: two detections sharing the
label (car, present) plus one classification with a distinct label. -/
def exampleImage : ImageRow :=
  { ground_truth_detections :=
      [{ labeled_ground_truth_detections :=
          [{ label := { id := 1, key := "car", value := "present" } }] },
       { labeled_ground_truth_detections :=
          [{ label := { id := 1, key := "car", value := "present" } }] }]
    ground_truth_classifications :=
      [{ label := { id := 2, key := "night", value := "yes" } }]
    ground_truth_segmentations := [] }

/-- Witness for claim C9: on `exampleImage` the collected set has size 2,
not 3. -/
theorem unique_label_ids_spec_witness :
    (∀ l1 ∈ allImageLabels exampleImage, ∀ l2 ∈ allImageLabels exampleImage,
      (l1.id = l2.id ↔ l1.key = l2.key ∧ l1.value = l2.value))
    ∧ ((∀ i, i ∈ get_unique_label_ids_in_image exampleImage
        ↔ ∃ l ∈ allImageLabels exampleImage, l.id = i)
      ∧ (get_unique_label_ids_in_image exampleImage).card
          = ((allImageLabels exampleImage).map
              (fun l => (l.key, l.value))).toFinset.card)
    ∧ (get_unique_label_ids_in_image exampleImage).card = 2 :=
  ⟨by decide, unique_label_ids_spec exampleImage (by decide), by decide⟩

end VelourApi
